import Mathlib

/-!
Shallow embedding of the student-records CRUD server (Express + SQLite,
`src/unnamed/part_000`) and proofs about its endpoint handlers.

The request bodies are JSON values; the handlers destructure the four
business fields, test them for JavaScript truthiness, coerce `age` with
`parseInt(age, 10)`, and run one SQL statement against the single table
`student_details(id, name, email, age, gender, created_at)` whose `id`
column is `INTEGER PRIMARY KEY AUTOINCREMENT`.
-/

namespace StudentApi

/-- A JavaScript value as it can arrive in a JSON request-body field:
absent or null (`vNull`), the number NaN (`vNaN`, produced by coercions),
an integer number, or a string. -/
inductive JsValue where
  | vNull
  | vNaN
  | vNum (n : Int)
  | vStr (s : String)
deriving Repr, DecidableEq

/-- JavaScript truthiness, as tested by `!name || !email || !age || !gender`:
null/undefined, NaN, the number 0 and the empty string are falsy. -/
def JsValue.truthy : JsValue → Bool
  | .vNull => false
  | .vNaN => false
  | .vNum n => n != 0
  | .vStr s => !s.isEmpty

/-- JavaScript `ToString`, applied by `parseInt` to its argument. -/
def jsToString : JsValue → String
  | .vNull => "null"
  | .vNaN => "NaN"
  | .vNum n => toString n
  | .vStr s => s

/-- Numeric value of a run of decimal digit characters. -/
def digitsVal (ds : List Char) : Nat :=
  ds.foldl (fun acc c => acc * 10 + (c.toNat - 48)) 0

/-- Read the longest leading run of decimal digits; `none` when there is
no leading digit (`parseInt` then yields NaN). -/
def parseDigits (cs : List Char) : Option Nat :=
  let ds := cs.takeWhile Char.isDigit
  if ds.isEmpty then none else some (digitsVal ds)

/-- `parseInt(s, 10)`: skip leading whitespace, accept one optional sign,
then read leading decimal digits, ignoring any trailing characters.
`none` models the NaN result. -/
def parseIntStr (s : String) : Option Int :=
  match s.toList.dropWhile Char.isWhitespace with
  | '-' :: rest => (parseDigits rest).map (fun n => -(n : Int))
  | '+' :: rest => (parseDigits rest).map (fun n => (n : Int))
  | cs => (parseDigits cs).map (fun n => (n : Int))

/-- `parseInt(v, 10)` on a JSON field value. -/
def parseIntJs (v : JsValue) : Option Int := parseIntStr (jsToString v)

/-- SQL binding of a JSON value into a TEXT column: strings bind as
themselves, numbers get text affinity, null and NaN bind as SQL NULL
(SQLite stores NaN as NULL). -/
def JsValue.bindText : JsValue → Option String
  | .vStr s => some s
  | .vNum n => some (toString n)
  | .vNull => none
  | .vNaN => none

/-- One row of `student_details`. -/
structure Student where
  id : Nat
  name : String
  email : String
  age : Int
  gender : String
  created_at : Nat
deriving Repr, DecidableEq

/-- The store: the table rows in rowid (insertion) order, and the
AUTOINCREMENT sequence value (largest id ever assigned). -/
structure DbState where
  rows : List Student
  seq : Nat
deriving Repr, DecidableEq

/-- The freshly created table. -/
def initState : DbState := ⟨[], 0⟩

/-- The ids present in the table. -/
def idsOf (st : DbState) : List Nat := st.rows.map Student.id

/-- SQLite error message for a NOT NULL constraint violation on a column
of `student_details`. -/
def notNullMsg (col : String) : String :=
  "SQLITE_CONSTRAINT: NOT NULL constraint failed: student_details." ++ col

/-- `INSERT INTO student_details (name, email, age, gender) VALUES (?,?,?,?)`:
AUTOINCREMENT assigns id `seq + 1`; `created_at` defaults to the current
timestamp; a NULL binding for any of the four NOT NULL columns aborts the
statement with a constraint error. -/
def insertStudent (st : DbState) (name email : Option String) (age : Option Int)
    (gender : Option String) (now : Nat) : Except String (Student × DbState) :=
  match name with
  | none => .error (notNullMsg "name")
  | some nm =>
    match email with
    | none => .error (notNullMsg "email")
    | some em =>
      match age with
      | none => .error (notNullMsg "age")
      | some ag =>
        match gender with
        | none => .error (notNullMsg "gender")
        | some gd =>
          let s : Student := ⟨st.seq + 1, nm, em, ag, gd, now⟩
          .ok (s, ⟨st.rows ++ [s], st.seq + 1⟩)

/-- `SELECT * FROM student_details WHERE id = ?` via `db.get`: the first
matching row in rowid order, if any. -/
def findById (st : DbState) (i : Nat) : Option Student :=
  st.rows.find? (fun r => r.id == i)

/-- The four business fields of a request body. A key absent from the
JSON destructures to undefined, modelled as `vNull`. -/
structure ReqBody where
  name : JsValue
  email : JsValue
  age : JsValue
  gender : JsValue
deriving Repr, DecidableEq

/-- A request body whose four fields are the given strings. -/
def strBody (ns es as gs : String) : ReqBody :=
  ⟨.vStr ns, .vStr es, .vStr as, .vStr gs⟩

/-- A JSON response body: one student record, a list of records, or an
error object with `error` and `message` fields. -/
inductive RespBody where
  | student (s : Student)
  | students (l : List Student)
  | errMsg (error message : String)
  | empty
deriving Repr, DecidableEq

/-- An HTTP response: status code and JSON body. -/
structure HttpResponse where
  status : Nat
  body : RespBody
deriving Repr, DecidableEq

/-- The `message` field of an error response body. -/
def respMessage (resp : HttpResponse) : String :=
  match resp.body with
  | .errMsg _ m => m
  | _ => ""

/-- The validation `!name || !email || !age || !gender` passes. -/
def validBody (b : ReqBody) : Bool :=
  b.name.truthy && b.email.truthy && b.age.truthy && b.gender.truthy

/-- The 400 response of the create and update handlers. -/
def badRequestResp : HttpResponse :=
  ⟨400, .errMsg "Bad Request" "All fields (name, email, age, gender) are required"⟩

/-- The 404 response for a missing student id. -/
def notFoundResp (i : Nat) : HttpResponse :=
  ⟨404, .errMsg "Not Found" ("Student with ID " ++ toString i ++ " not found")⟩

/-- The 500 response of a handler's catch block: a per-endpoint prefix
with the caught error's message appended. -/
def storageErrResp (action : String) (detail : String) : HttpResponse :=
  ⟨500, .errMsg "Internal Server Error" ("Failed to " ++ action ++ ": " ++ detail)⟩

/-- `app.post('/students')`: validate truthiness of the four fields,
insert with `parseInt(age, 10)`, re-select the row by `lastID`, respond
201 with it; on a storage error respond 500 with the error's message. -/
def postStudents (st : DbState) (b : ReqBody) (now : Nat) : HttpResponse × DbState :=
  if validBody b then
    match insertStudent st b.name.bindText b.email.bindText (parseIntJs b.age)
        b.gender.bindText now with
    | .ok (s, st') =>
      (⟨201, match findById st' s.id with
             | some s2 => .student s2
             | none => .empty⟩, st')
    | .error e => (storageErrResp "add student" e, st)
  else (badRequestResp, st)

/-- The updated version of a row: the four business fields overwritten,
`id` and `created_at` kept. -/
def updateRow (name email : String) (age : Int) (gender : String) (r : Student) : Student :=
  ⟨r.id, name, email, age, gender, r.created_at⟩

/-- `UPDATE student_details SET name=?, email=?, age=?, gender=? WHERE id=?`:
returns the number of changed rows; when at least one row matches, a NULL
binding for a NOT NULL column aborts with a constraint error (constraints
are only checked on rows actually updated). -/
def runUpdate (st : DbState) (i : Nat) (name email : Option String) (age : Option Int)
    (gender : Option String) : Except String (Nat × DbState) :=
  let changes := st.rows.countP (fun r => r.id == i)
  if changes == 0 then .ok (0, st)
  else
    match name with
    | none => .error (notNullMsg "name")
    | some nm =>
      match email with
      | none => .error (notNullMsg "email")
      | some em =>
        match age with
        | none => .error (notNullMsg "age")
        | some ag =>
          match gender with
          | none => .error (notNullMsg "gender")
          | some gd =>
            .ok (changes,
              ⟨st.rows.map (fun r => if r.id == i then updateRow nm em ag gd r else r),
               st.seq⟩)

/-- `app.put('/students/:id')`: validate truthiness, run the UPDATE, 404
when no row changed, otherwise re-select by id and respond 200; on a
storage error respond 500 with the error's message. -/
def putStudents (st : DbState) (i : Nat) (b : ReqBody) : HttpResponse × DbState :=
  if validBody b then
    match runUpdate st i b.name.bindText b.email.bindText (parseIntJs b.age)
        b.gender.bindText with
    | .ok (changes, st') =>
      if changes == 0 then (notFoundResp i, st')
      else
        (⟨200, match findById st' i with
               | some s2 => .student s2
               | none => .empty⟩, st')
    | .error e => (storageErrResp "update student" e, st)
  else (badRequestResp, st)

/-- `app.get('/students/:id')`: 404 when absent, else 200 with the row. -/
def getStudentById (st : DbState) (i : Nat) : HttpResponse :=
  match findById st i with
  | none => notFoundResp i
  | some s => ⟨200, .student s⟩

/-- `SELECT * FROM student_details ORDER BY id DESC`. -/
def sortByIdDesc (rows : List Student) : List Student :=
  rows.mergeSort (fun a b => b.id ≤ a.id)

/-- `app.get('/students')`: 200 with all rows ordered by id descending. -/
def getStudents (st : DbState) : HttpResponse :=
  ⟨200, .students (sortByIdDesc st.rows)⟩

/-- `app.delete('/students/:id')`: select the row first for the response,
404 when absent, else delete it and respond 200 with the pre-deletion
row. -/
def deleteStudents (st : DbState) (i : Nat) : HttpResponse × DbState :=
  match findById st i with
  | none => (notFoundResp i, st)
  | some s => (⟨200, .student s⟩, ⟨st.rows.filter (fun r => r.id != i), st.seq⟩)

/-- A mutating request: create, update or delete. -/
inductive Op where
  | opPost (b : ReqBody) (now : Nat)
  | opPut (i : Nat) (b : ReqBody)
  | opDelete (i : Nat)

/-- The state after handling one mutating request. -/
def applyOp (st : DbState) : Op → DbState
  | .opPost b now => (postStudents st b now).2
  | .opPut i b => (putStudents st i b).2
  | .opDelete i => (deleteStudents st i).2

/-- The state after handling a sequence of mutating requests. -/
def runOps (st : DbState) (ops : List Op) : DbState := ops.foldl applyOp st

/-- Store invariant: every id is at most the sequence value, and ids are
pairwise distinct. -/
def Inv (st : DbState) : Prop :=
  (∀ r ∈ st.rows, r.id ≤ st.seq) ∧ (idsOf st).Nodup

/-- `st2` is a possible future of `st`: the sequence value has not
decreased, and every row either has a fresh id (above `st.seq`, hence
never assigned up to `st`) or continues a row of `st` with the same id
and creation timestamp. -/
def Evolves (st st2 : DbState) : Prop :=
  st.seq ≤ st2.seq ∧
  ∀ r2 ∈ st2.rows, st.seq < r2.id ∨
    ∃ r ∈ st.rows, r.id = r2.id ∧ r.created_at = r2.created_at

example : parseIntStr "21" = some 21 := by decide
example : parseIntStr "abc" = none := by decide
example : parseIntStr "" = none := by decide
example : parseIntStr " -42xyz" = some (-42) := by decide
example : (postStudents initState (strBody "Ana" "a@x.com" "21" "Female") 7).1.status = 201 := by decide

/-! ### Helper lemmas -/

theorem truthy_vStr {s : String} (h : s ≠ "") : (JsValue.vStr s).truthy = true := by
  have hem : s.isEmpty = false := by
    rw [Bool.eq_false_iff]
    intro hx
    exact h ((String.isEmpty_iff s).mp hx)
  simp [JsValue.truthy, hem]

theorem validBody_strBody {ns es as gs : String} (hn : ns ≠ "") (he : es ≠ "")
    (ha : as ≠ "") (hg : gs ≠ "") : validBody (strBody ns es as gs) = true := by
  simp [validBody, strBody, truthy_vStr, hn, he, ha, hg]

theorem truthy_bindText {v : JsValue} (h : v.truthy = true) : ∃ s, v.bindText = some s := by
  cases v with
  | vNull => simp [JsValue.truthy] at h
  | vNaN => simp [JsValue.truthy] at h
  | vNum n => exact ⟨toString n, rfl⟩
  | vStr s => exact ⟨s, rfl⟩

theorem find?_id_append_fresh (rows : List Student) (bound : Nat)
    (hb : ∀ r ∈ rows, r.id ≤ bound) (s : Student) (hs : bound < s.id) :
    (rows ++ [s]).find? (fun r => r.id == s.id) = some s := by
  induction rows with
  | nil => simp
  | cons a t ih =>
    have haid : (a.id == s.id) = false := by
      have := hb a (by simp)
      simp only [beq_eq_false_iff_ne]
      omega
    simpa [List.find?, haid] using ih (fun r hr => hb r (by simp [hr]))

theorem seq_succ_not_mem (st : DbState) (hinv : Inv st) : st.seq + 1 ∉ idsOf st := by
  intro hmem
  simp only [idsOf, List.mem_map] at hmem
  obtain ⟨r, hr, hid⟩ := hmem
  have := hinv.1 r hr
  omega

/-! ### C1: successful create -/

/-- C1: a POST /students request whose four fields are non-empty strings,
and whose insert succeeds (the age string parses to an integer), yields a
201 response whose body is a record with a freshly assigned id (not the
id of any pre-existing record) and with the submitted name, email, gender
and integer-coerced age; the row is appended to the table. -/
theorem post_create_ok (st : DbState) (hinv : Inv st) (ns es as gs : String)
    (hn : ns ≠ "") (he : es ≠ "") (ha0 : as ≠ "") (hg : gs ≠ "")
    (n : Int) (ha : parseIntStr as = some n) (now : Nat) :
    (postStudents st (strBody ns es as gs) now).1.status = 201 ∧
    (postStudents st (strBody ns es as gs) now).1.body =
      .student ⟨st.seq + 1, ns, es, n, gs, now⟩ ∧
    st.seq + 1 ∉ idsOf st ∧
    (postStudents st (strBody ns es as gs) now).2.rows =
      st.rows ++ [⟨st.seq + 1, ns, es, n, gs, now⟩] := by
  have hv : validBody ⟨.vStr ns, .vStr es, .vStr as, .vStr gs⟩ = true :=
    validBody_strBody hn he ha0 hg
  have hfind : findById ⟨st.rows ++ [⟨st.seq + 1, ns, es, n, gs, now⟩], st.seq + 1⟩
      (st.seq + 1) = some ⟨st.seq + 1, ns, es, n, gs, now⟩ :=
    find?_id_append_fresh st.rows st.seq hinv.1 ⟨st.seq + 1, ns, es, n, gs, now⟩
      (Nat.lt_succ_self _)
  refine ⟨?_, ?_, seq_succ_not_mem st hinv, ?_⟩ <;>
    simp [postStudents, hv, strBody, JsValue.bindText, parseIntJs, jsToString, ha,
      insertStudent, hfind]

/-- Witness for `post_create_ok` at a concrete request on the empty store. -/
theorem post_create_ok_witness :
    (postStudents initState (strBody "Ana" "a@x.com" "21" "Female") 7).1.status = 201 ∧
    (postStudents initState (strBody "Ana" "a@x.com" "21" "Female") 7).1.body =
      .student ⟨initState.seq + 1, "Ana", "a@x.com", 21, "Female", 7⟩ ∧
    initState.seq + 1 ∉ idsOf initState ∧
    (postStudents initState (strBody "Ana" "a@x.com" "21" "Female") 7).2.rows =
      initState.rows ++ [⟨initState.seq + 1, "Ana", "a@x.com", 21, "Female", 7⟩] :=
  post_create_ok initState ⟨by simp [initState], by simp [initState, idsOf]⟩
    "Ana" "a@x.com" "21" "Female" (by decide) (by decide) (by decide) (by decide)
    21 (by decide) 7

/-! ### C2: missing field rejected -/

/-- C2: a POST /students or PUT /students/:id request in which at least
one of the four fields is missing (null/undefined) or the empty string is
answered 400 and leaves the store untouched, so no record is created or
modified and the list count is unchanged. -/
theorem missing_field_400 (st : DbState) (b : ReqBody) (i now : Nat)
    (h : b.name = .vNull ∨ b.name = .vStr "" ∨ b.email = .vNull ∨ b.email = .vStr "" ∨
      b.age = .vNull ∨ b.age = .vStr "" ∨ b.gender = .vNull ∨ b.gender = .vStr "") :
    (postStudents st b now).1.status = 400 ∧ (postStudents st b now).2 = st ∧
    (putStudents st i b).1.status = 400 ∧ (putStudents st i b).2 = st := by
  have hfalse : (JsValue.vStr "").truthy = false := by decide
  have hnull : JsValue.vNull.truthy = false := rfl
  have hv : validBody b = false := by
    rcases h with h | h | h | h | h | h | h | h <;>
      simp [validBody, h, hfalse, hnull]
  simp [postStudents, putStudents, hv, badRequestResp]

/-- Witness for `missing_field_400`: a body whose age field is absent. -/
theorem missing_field_400_witness :
    (postStudents initState ⟨.vStr "Ana", .vStr "a@x.com", .vNull, .vStr "Female"⟩ 0).1.status = 400 ∧
    (postStudents initState ⟨.vStr "Ana", .vStr "a@x.com", .vNull, .vStr "Female"⟩ 0).2 = initState ∧
    (putStudents initState 1 ⟨.vStr "Ana", .vStr "a@x.com", .vNull, .vStr "Female"⟩).1.status = 400 ∧
    (putStudents initState 1 ⟨.vStr "Ana", .vStr "a@x.com", .vNull, .vStr "Female"⟩).2 = initState :=
  missing_field_400 initState ⟨.vStr "Ana", .vStr "a@x.com", .vNull, .vStr "Female"⟩ 1 0
    (by simp)

/-! ### C9: falsy age rejected -/

/-- C9: a POST /students or PUT /students/:id request whose age field is
falsy (the number 0, the empty string, NaN or null) is answered 400 with
no storage operation performed, even when name, email and gender are
present (truthy). -/
theorem falsy_age_400 (st : DbState) (i now : Nat) (b : ReqBody)
    (hn : b.name.truthy = true) (he : b.email.truthy = true)
    (hg : b.gender.truthy = true) (ha : b.age.truthy = false) :
    (postStudents st b now).1.status = 400 ∧ (postStudents st b now).2 = st ∧
    (putStudents st i b).1.status = 400 ∧ (putStudents st i b).2 = st := by
  have hv : validBody b = false := by simp [validBody, ha]
  simp [postStudents, putStudents, hv, badRequestResp]

/-- Witness for `falsy_age_400`: age is the number 0, the other fields
are non-empty strings. -/
theorem falsy_age_400_witness :
    (postStudents initState ⟨.vStr "Ana", .vStr "a@x.com", .vNum 0, .vStr "Female"⟩ 0).1.status = 400 ∧
    (postStudents initState ⟨.vStr "Ana", .vStr "a@x.com", .vNum 0, .vStr "Female"⟩ 0).2 = initState ∧
    (putStudents initState 1 ⟨.vStr "Ana", .vStr "a@x.com", .vNum 0, .vStr "Female"⟩).1.status = 400 ∧
    (putStudents initState 1 ⟨.vStr "Ana", .vStr "a@x.com", .vNum 0, .vStr "Female"⟩).2 = initState := by
  have h := falsy_age_400 initState 1 0 ⟨.vStr "Ana", .vStr "a@x.com", .vNum 0, .vStr "Female"⟩
    (by decide) (by decide) (by decide) (by decide)
  exact h

/-! ### C7: update of an absent id -/

/-- C7: a PUT /students/:id request that passes validation but names an
id with no matching record is answered 404 and leaves the store
untouched. -/
theorem put_absent_404 (st : DbState) (i : Nat) (b : ReqBody)
    (hv : validBody b = true) (habs : findById st i = none) :
    (putStudents st i b).1.status = 404 ∧ (putStudents st i b).2 = st := by
  have hc : st.rows.countP (fun r => r.id == i) = 0 := by
    rw [List.countP_eq_zero]
    intro r hr
    exact List.find?_eq_none.mp habs r hr
  simp [putStudents, hv, runUpdate, hc, notFoundResp]

/-- Witness for `put_absent_404`: a valid body against the empty store. -/
theorem put_absent_404_witness :
    (putStudents initState 5 (strBody "Ana" "a@x.com" "21" "Female")).1.status = 404 ∧
    (putStudents initState 5 (strBody "Ana" "a@x.com" "21" "Female")).2 = initState :=
  put_absent_404 initState 5 (strBody "Ana" "a@x.com" "21" "Female") (by decide) (by decide)

/-! ### C4: delete of an existing id -/

theorem find?_filter_ne (rows : List Student) (i : Nat) :
    (rows.filter (fun r => r.id != i)).find? (fun r => r.id == i) = none := by
  rw [List.find?_eq_none]
  intro x hx
  have hne := (List.mem_filter.mp hx).2
  simp only [bne_iff_ne, ne_eq] at hne
  simp [hne]

/-- A concrete store holding a single student, used by witnesses. -/
def st1 : DbState := ⟨[⟨1, "Ana", "a@x.com", 21, "Female", 7⟩], 1⟩

/-- C4: a DELETE /students/:id request for an existing id is answered 200
with the record exactly as stored before removal, and afterwards a GET
/students/:id for the same id is answered 404. -/
theorem delete_existing_ok (st : DbState) (i : Nat) (r : Student)
    (hr : findById st i = some r) :
    (deleteStudents st i).1 = ⟨200, .student r⟩ ∧
    getStudentById (deleteStudents st i).2 i = notFoundResp i := by
  have hr' : st.rows.find? (fun x => x.id == i) = some r := hr
  have hff : st.rows.find? (fun _ => false) = none := by
    rw [List.find?_eq_none]
    intro x hx
    simp
  constructor
  · simp [deleteStudents, findById, hr']
  · simp [deleteStudents, getStudentById, findById, hr', find?_filter_ne, hff]

/-- Witness for `delete_existing_ok` on the one-record store. -/
theorem delete_existing_ok_witness :
    (deleteStudents st1 1).1 = ⟨200, .student ⟨1, "Ana", "a@x.com", 21, "Female", 7⟩⟩ ∧
    getStudentById (deleteStudents st1 1).2 1 = notFoundResp 1 :=
  delete_existing_ok st1 1 ⟨1, "Ana", "a@x.com", 21, "Female", 7⟩ (by decide)

/-! ### C3: update of an existing id -/

theorem find?_id_map_pres (l : List Student) (f : Student → Student)
    (hf : ∀ x, (f x).id = x.id) (i : Nat) :
    (l.map f).find? (fun r => r.id == i) = (l.find? (fun r => r.id == i)).map f := by
  induction l with
  | nil => rfl
  | cons a t ih =>
    simp only [List.map_cons, List.find?_cons, hf a]
    cases h : (a.id == i) <;> simp [ih]

/-- Counterexample to C3 as stated: on a store holding the record with id
1, a PUT /students/1 whose four fields are all present (truthy) but whose
age string parses to NaN is answered 500 (the UPDATE violates the NOT
NULL constraint), not 200. -/
theorem put_200_counterexample :
    validBody (strBody "Ana B" "a@x.com" "abc" "Female") = true ∧
    findById st1 1 = some ⟨1, "Ana", "a@x.com", 21, "Female", 7⟩ ∧
    (putStudents st1 1 (strBody "Ana B" "a@x.com" "abc" "Female")).1.status = 500 ∧
    ¬ (putStudents st1 1 (strBody "Ana B" "a@x.com" "abc" "Female")).1.status = 200 := by
  refine ⟨by decide, by decide, by decide, by decide⟩

/-- C3 (amended): a PUT /students/:id whose four fields are non-empty
strings and whose age string parses to an integer (so the UPDATE
succeeds), against an existing id, is answered 200 with a body whose
name, email, age and gender are the new values while id and created_at
are the pre-update values; every other record is left unmodified and the
sequence value is unchanged. -/
theorem put_update_ok (st : DbState) (i : Nat) (r : Student)
    (ns es as gs : String) (hn : ns ≠ "") (he : es ≠ "") (ha0 : as ≠ "") (hg : gs ≠ "")
    (n : Int) (ha : parseIntStr as = some n) (hr : findById st i = some r) :
    (putStudents st i (strBody ns es as gs)).1 =
      ⟨200, .student ⟨r.id, ns, es, n, gs, r.created_at⟩⟩ ∧
    (putStudents st i (strBody ns es as gs)).2.rows =
      st.rows.map (fun x => if x.id == i then updateRow ns es n gs x else x) ∧
    (putStudents st i (strBody ns es as gs)).2.seq = st.seq ∧
    ∀ x ∈ st.rows, x.id ≠ i → x ∈ (putStudents st i (strBody ns es as gs)).2.rows := by
  have hv : validBody ⟨.vStr ns, .vStr es, .vStr as, .vStr gs⟩ = true :=
    validBody_strBody hn he ha0 hg
  have hr' : st.rows.find? (fun x => x.id == i) = some r := hr
  have hrmem : r ∈ st.rows := List.mem_of_find?_eq_some hr'
  have hrid : (r.id == i) = true := by
    have h := List.find?_some hr'
    simpa using h
  have hcpos : 0 < st.rows.countP (fun x => x.id == i) :=
    List.countP_pos_iff.mpr ⟨r, hrmem, hrid⟩
  have hc : (st.rows.countP (fun x => x.id == i) == 0) = false := by
    simp only [beq_eq_false_iff_ne, ne_eq]
    omega
  have hfid : ∀ x : Student,
      ((fun x => if x.id == i then updateRow ns es n gs x else x) x).id = x.id := by
    intro x
    by_cases hx : (x.id == i) = true <;> simp [hx, updateRow]
  have hri : r.id = i := by simpa using hrid
  have hfind2 : (st.rows.map (fun x => if x.id == i then updateRow ns es n gs x else x)).find?
      (fun x => x.id == i) = some (updateRow ns es n gs r) := by
    rw [find?_id_map_pres st.rows _ hfid i, hr']
    simp [hri]
  have hrun : runUpdate st i (some ns) (some es) (some n) (some gs) =
      .ok (st.rows.countP (fun x => x.id == i),
        ⟨st.rows.map (fun x => if x.id == i then updateRow ns es n gs x else x), st.seq⟩) := by
    simp [runUpdate, hc]
  have hput : putStudents st i (strBody ns es as gs) =
      (⟨200, .student ⟨r.id, ns, es, n, gs, r.created_at⟩⟩,
       ⟨st.rows.map (fun x => if x.id == i then updateRow ns es n gs x else x), st.seq⟩) := by
    simp only [putStudents, hv, strBody, JsValue.bindText, parseIntJs, jsToString, ha,
      hrun, hc, findById, if_true]
    have hfind3 := hfind2
    simp only [beq_iff_eq, updateRow] at hfind3 ⊢
    simp [hfind3]
  refine ⟨by rw [hput], by rw [hput], by rw [hput], ?_⟩
  intro x hx hne
  rw [hput]
  refine List.mem_map.mpr ⟨x, hx, ?_⟩
  have hxf : (x.id == i) = false := by simp [hne]
  simp [hxf]

/-- Witness for `put_update_ok`: updating record 1 of the one-record
store with new name and age. -/
theorem put_update_ok_witness :
    (putStudents st1 1 (strBody "Ana B" "a@x.com" "22" "Female")).1 =
      ⟨200, .student ⟨1, "Ana B", "a@x.com", 22, "Female", 7⟩⟩ ∧
    (putStudents st1 1 (strBody "Ana B" "a@x.com" "22" "Female")).2.rows =
      st1.rows.map (fun x => if x.id == 1 then updateRow "Ana B" "a@x.com" 22 "Female" x else x) ∧
    (putStudents st1 1 (strBody "Ana B" "a@x.com" "22" "Female")).2.seq = st1.seq ∧
    ∀ x ∈ st1.rows, x.id ≠ 1 →
      x ∈ (putStudents st1 1 (strBody "Ana B" "a@x.com" "22" "Female")).2.rows :=
  put_update_ok st1 1 ⟨1, "Ana", "a@x.com", 21, "Female", 7⟩ "Ana B" "a@x.com" "22" "Female"
    (by decide) (by decide) (by decide) (by decide) 22 (by decide) (by decide)

/-! ### C5: listing -/

theorem sortByIdDesc_perm (rows : List Student) : (sortByIdDesc rows).Perm rows :=
  List.mergeSort_perm rows _

theorem sortByIdDesc_sorted (rows : List Student) :
    (sortByIdDesc rows).Pairwise (fun a b => b.id ≤ a.id) := by
  unfold sortByIdDesc
  have h := @List.sorted_mergeSort Student (fun a b => decide (b.id ≤ a.id))
    (fun a b c hab hbc => by
      simp only [decide_eq_true_eq] at hab hbc ⊢
      omega)
    (fun a b => by
      simp only [Bool.or_eq_true, decide_eq_true_eq]
      omega) rows
  exact h.imp (fun hab => by simpa using hab)

/-- C5: GET /students responds 200 with all stored records — the returned
list is a permutation of the table, nothing paginated or truncated — in
strictly descending id order (on any store whose ids are well formed,
i.e. pairwise distinct and bounded by the sequence value). -/
theorem list_all_desc (st : DbState) (hinv : Inv st) :
    (getStudents st).status = 200 ∧
    (getStudents st).body = .students (sortByIdDesc st.rows) ∧
    (sortByIdDesc st.rows).Perm st.rows ∧
    (sortByIdDesc st.rows).Pairwise (fun a b => b.id < a.id) := by
  refine ⟨rfl, rfl, sortByIdDesc_perm st.rows, ?_⟩
  have hle := sortByIdDesc_sorted st.rows
  have hnd : ((sortByIdDesc st.rows).map Student.id).Nodup := by
    have hperm : ((sortByIdDesc st.rows).map Student.id).Perm (st.rows.map Student.id) :=
      (sortByIdDesc_perm st.rows).map Student.id
    exact (hperm.nodup_iff).mpr hinv.2
  have hne : (sortByIdDesc st.rows).Pairwise (fun a b => a.id ≠ b.id) :=
    List.pairwise_map.mp hnd
  exact (hle.and hne).imp (fun hab => by omega)

/-- Witness for `list_all_desc` on the one-record store. -/
theorem list_all_desc_witness :
    (getStudents st1).status = 200 ∧
    (getStudents st1).body = .students (sortByIdDesc st1.rows) ∧
    (sortByIdDesc st1.rows).Perm st1.rows ∧
    (sortByIdDesc st1.rows).Pairwise (fun a b => b.id < a.id) :=
  list_all_desc st1 (by constructor <;> decide)

/-! ### C6: storage-error responses -/

theorem truthy_parts {b : ReqBody} (hv : validBody b = true) :
    b.name.truthy = true ∧ b.email.truthy = true ∧
    b.age.truthy = true ∧ b.gender.truthy = true := by
  simpa [validBody, and_assoc] using hv

theorem postStudents_age_null (st : DbState) (b : ReqBody) (now : Nat)
    (hv : validBody b = true) (hage : parseIntJs b.age = none) :
    postStudents st b now = (storageErrResp "add student" (notNullMsg "age"), st) := by
  obtain ⟨h1, h2, _, h4⟩ := truthy_parts hv
  obtain ⟨nm, hnm⟩ := truthy_bindText h1
  obtain ⟨em, hem⟩ := truthy_bindText h2
  obtain ⟨gd, hgd⟩ := truthy_bindText h4
  simp [postStudents, hv, insertStudent, hnm, hem, hgd, hage]

theorem putStudents_age_null (st : DbState) (i : Nat) (b : ReqBody) (r : Student)
    (hv : validBody b = true) (hage : parseIntJs b.age = none)
    (hr : findById st i = some r) :
    putStudents st i b = (storageErrResp "update student" (notNullMsg "age"), st) := by
  obtain ⟨h1, h2, _, h4⟩ := truthy_parts hv
  obtain ⟨nm, hnm⟩ := truthy_bindText h1
  obtain ⟨em, hem⟩ := truthy_bindText h2
  obtain ⟨gd, hgd⟩ := truthy_bindText h4
  have hr' : st.rows.find? (fun x => x.id == i) = some r := hr
  have hcpos : 0 < st.rows.countP (fun x => x.id == i) :=
    List.countP_pos_iff.mpr ⟨r, List.mem_of_find?_eq_some hr', by simpa using List.find?_some hr'⟩
  have hc : (st.rows.countP (fun x => x.id == i) == 0) = false := by
    simp only [beq_eq_false_iff_ne, ne_eq]
    omega
  simp [putStudents, hv, runUpdate, hc, hnm, hem, hgd, hage]

/-- A valid body whose age string parses to NaN. -/
def bodyNaNAge : ReqBody := strBody "Ana" "a@x.com" "abc" "Female"

/-- Counterexample to C6 as stated: on the one-record store, a POST
/students whose age string is "abc" fails with a NOT NULL storage error,
and the 500 response's message is not only a generic text — it is the
generic prefix with the underlying SQLite error detail appended, so the
client-visible body does include the underlying detail. -/
theorem storage_error_leak_counterexample :
    (postStudents st1 bodyNaNAge 9).1.status = 500 ∧
    respMessage (postStudents st1 bodyNaNAge 9).1 =
      "Failed to add student: " ++ notNullMsg "age" ∧
    notNullMsg "age" ≠ "" := by
  refine ⟨by decide, by decide, by decide⟩

/-- C6 (amended): a POST or PUT /students request that fails with a
storage error (a NULL age binding, the one storage failure expressible in
this model) is answered 500, the store is unchanged, and the response
message is the endpoint's generic prefix with the underlying error's
detail appended — the detail is client-visible rather than confined to
server-side logs. -/
theorem storage_error_detail_leaked (st : DbState) (b : ReqBody) (r : Student) (i now : Nat)
    (hv : validBody b = true) (hage : parseIntJs b.age = none)
    (hr : findById st i = some r) :
    (postStudents st b now).1.status = 500 ∧
    respMessage (postStudents st b now).1 =
      "Failed to add student: " ++ notNullMsg "age" ∧
    (postStudents st b now).2 = st ∧
    (putStudents st i b).1.status = 500 ∧
    respMessage (putStudents st i b).1 =
      "Failed to update student: " ++ notNullMsg "age" ∧
    (putStudents st i b).2 = st := by
  rw [postStudents_age_null st b now hv hage, putStudents_age_null st i b r hv hage hr]
  refine ⟨rfl, rfl, rfl, rfl, rfl, rfl⟩

/-- Witness for `storage_error_detail_leaked` on the one-record store. -/
theorem storage_error_detail_leaked_witness :
    (postStudents st1 bodyNaNAge 9).1.status = 500 ∧
    respMessage (postStudents st1 bodyNaNAge 9).1 =
      "Failed to add student: " ++ notNullMsg "age" ∧
    (postStudents st1 bodyNaNAge 9).2 = st1 ∧
    (putStudents st1 1 bodyNaNAge).1.status = 500 ∧
    respMessage (putStudents st1 1 bodyNaNAge).1 =
      "Failed to update student: " ++ notNullMsg "age" ∧
    (putStudents st1 1 bodyNaNAge).2 = st1 :=
  storage_error_detail_leaked st1 bodyNaNAge ⟨1, "Ana", "a@x.com", 21, "Female", 7⟩ 1 9
    (by decide) (by decide) (by decide)

/-! ### C10: unparseable age string -/

/-- C10: a POST /students whose age field is a non-empty string that
parseInt cannot read (no leading digits, e.g. "abc") passes the
truthiness validation, the age is coerced to NaN (modelled as `none`),
the INSERT violates the NOT NULL constraint on `student_details.age`,
and the response is the 500 storage-error response — not 400 — with no
record created. -/
theorem post_nan_age_500 (st : DbState) (now : Nat) (ns es as gs : String)
    (hn : ns ≠ "") (he : es ≠ "") (hg : gs ≠ "") (hne : as ≠ "")
    (ha : parseIntStr as = none) :
    validBody (strBody ns es as gs) = true ∧
    parseIntJs (JsValue.vStr as) = none ∧
    (postStudents st (strBody ns es as gs) now).1 =
      storageErrResp "add student" (notNullMsg "age") ∧
    (postStudents st (strBody ns es as gs) now).1.status ≠ 400 ∧
    (postStudents st (strBody ns es as gs) now).2 = st := by
  have hv : validBody (strBody ns es as gs) = true := validBody_strBody hn he hne hg
  have hage : parseIntJs (JsValue.vStr as) = none := ha
  have hpost := postStudents_age_null st (strBody ns es as gs) now hv hage
  rw [hpost]
  exact ⟨hv, hage, rfl, by simp [storageErrResp], rfl⟩

/-- Witness for `post_nan_age_500` with the age string "abc". -/
theorem post_nan_age_500_witness :
    validBody (strBody "Ana" "a@x.com" "abc" "Female") = true ∧
    parseIntJs (JsValue.vStr "abc") = none ∧
    (postStudents initState (strBody "Ana" "a@x.com" "abc" "Female") 0).1 =
      storageErrResp "add student" (notNullMsg "age") ∧
    (postStudents initState (strBody "Ana" "a@x.com" "abc" "Female") 0).1.status ≠ 400 ∧
    (postStudents initState (strBody "Ana" "a@x.com" "abc" "Female") 0).2 = initState :=
  post_nan_age_500 initState 0 "Ana" "a@x.com" "abc" "Female"
    (by decide) (by decide) (by decide) (by decide) (by decide)

/-! ### C8: id uniqueness and non-reuse -/

theorem Inv_initState : Inv initState := by
  constructor
  · intro r hr
    simp [initState] at hr
  · simp [initState, idsOf]

theorem postStudents_state (st : DbState) (b : ReqBody) (now : Nat) :
    (postStudents st b now).2 = st ∨
    ∃ s : Student, s.id = st.seq + 1 ∧
      (postStudents st b now).2 = ⟨st.rows ++ [s], st.seq + 1⟩ := by
  by_cases hv : validBody b = true
  · simp only [postStudents, hv, if_true]
    cases hn : b.name.bindText with
    | none => simp [insertStudent, hn]
    | some nm =>
      cases he : b.email.bindText with
      | none => simp [insertStudent, hn, he]
      | some em =>
        cases ha : parseIntJs b.age with
        | none => simp [insertStudent, hn, he, ha]
        | some ag =>
          cases hg : b.gender.bindText with
          | none => simp [insertStudent, hn, he, ha, hg]
          | some gd =>
            right
            exact ⟨⟨st.seq + 1, nm, em, ag, gd, now⟩, rfl,
              by simp [insertStudent, hn, he, ha, hg]⟩
  · simp [postStudents, hv]

theorem runUpdate_cases (st : DbState) (i : Nat) (name email : Option String)
    (age : Option Int) (gender : Option String) :
    runUpdate st i name email age gender = .ok (0, st) ∨
    (∃ e, runUpdate st i name email age gender = .error e) ∨
    ∃ nm em gd : String, ∃ ag : Int,
      (st.rows.countP (fun r => r.id == i) == 0) = false ∧
      runUpdate st i name email age gender =
        .ok (st.rows.countP (fun r => r.id == i),
          ⟨st.rows.map (fun r => if r.id == i then updateRow nm em ag gd r else r),
           st.seq⟩) := by
  by_cases hch : (st.rows.countP (fun r => r.id == i) == 0) = true
  · left
    simp [runUpdate, hch]
  · cases name with
    | none =>
      right; left
      exact ⟨notNullMsg "name", by simp [runUpdate, hch]⟩
    | some nm =>
      cases email with
      | none =>
        right; left
        exact ⟨notNullMsg "email", by simp [runUpdate, hch]⟩
      | some em =>
        cases age with
        | none =>
          right; left
          exact ⟨notNullMsg "age", by simp [runUpdate, hch]⟩
        | some ag =>
          cases gender with
          | none =>
            right; left
            exact ⟨notNullMsg "gender", by simp [runUpdate, hch]⟩
          | some gd =>
            right; right
            exact ⟨nm, em, gd, ag, by simp [hch], by simp [runUpdate, hch]⟩

theorem putStudents_state (st : DbState) (i : Nat) (b : ReqBody) :
    (putStudents st i b).2 = st ∨
    ∃ nm em gd : String, ∃ ag : Int,
      (putStudents st i b).2 =
        ⟨st.rows.map (fun r => if r.id == i then updateRow nm em ag gd r else r), st.seq⟩ := by
  by_cases hv : validBody b = true
  · simp only [putStudents, hv, if_true]
    rcases runUpdate_cases st i b.name.bindText b.email.bindText (parseIntJs b.age)
        b.gender.bindText with h | ⟨e, h⟩ | ⟨nm, em, gd, ag, hc0, h⟩
    · rw [h]
      left
      rfl
    · rw [h]
      left
      rfl
    · rw [h]
      right
      refine ⟨nm, em, gd, ag, ?_⟩
      simp [hc0]
  · simp [putStudents, hv]

theorem deleteStudents_state (st : DbState) (i : Nat) :
    (deleteStudents st i).2 = st ∨
    (deleteStudents st i).2 = ⟨st.rows.filter (fun r => r.id != i), st.seq⟩ := by
  cases hf : findById st i with
  | none => simp [deleteStudents, hf]
  | some s => simp [deleteStudents, hf]

theorem evolves_refl (st : DbState) : Evolves st st := by
  refine ⟨Nat.le_refl _, ?_⟩
  intro r2 h2
  exact Or.inr ⟨r2, h2, rfl, rfl⟩

theorem evolves_trans {st st' st2 : DbState} (h1 : Evolves st st') (h2 : Evolves st' st2) :
    Evolves st st2 := by
  refine ⟨Nat.le_trans h1.1 h2.1, ?_⟩
  intro r2 hr2
  rcases h2.2 r2 hr2 with h | ⟨r1, hr1, hid, hca⟩
  · exact Or.inl (Nat.lt_of_le_of_lt h1.1 h)
  · rcases h1.2 r1 hr1 with h | ⟨r0, hr0, hid0, hca0⟩
    · exact Or.inl (hid ▸ h)
    · exact Or.inr ⟨r0, hr0, hid0.trans hid, hca0.trans hca⟩

theorem inv_evolves_append (st : DbState) (hinv : Inv st) (s : Student)
    (hs : s.id = st.seq + 1) :
    Inv ⟨st.rows ++ [s], st.seq + 1⟩ ∧ Evolves st ⟨st.rows ++ [s], st.seq + 1⟩ := by
  refine ⟨⟨?_, ?_⟩, Nat.le_succ _, ?_⟩
  · intro r hr
    rcases List.mem_append.mp hr with h | h
    · exact Nat.le_trans (hinv.1 r h) (Nat.le_succ _)
    · simp only [List.mem_singleton] at h
      subst h
      show r.id ≤ st.seq + 1
      omega
  · simp only [idsOf, List.map_append, List.map_cons, List.map_nil]
    rw [List.nodup_append]
    refine ⟨hinv.2, List.nodup_singleton _, ?_⟩
    intro x hx1 hx2
    simp only [List.mem_singleton] at hx2
    obtain ⟨r, hrmem, hid⟩ := List.mem_map.mp hx1
    have := hinv.1 r hrmem
    omega
  · intro r2 hr2
    rcases List.mem_append.mp hr2 with h | h
    · exact Or.inr ⟨r2, h, rfl, rfl⟩
    · simp only [List.mem_singleton] at h
      subst h
      exact Or.inl (by omega)

theorem inv_evolves_map (st : DbState) (hinv : Inv st) (nm em gd : String) (ag : Int)
    (i : Nat) :
    Inv ⟨st.rows.map (fun r => if r.id == i then updateRow nm em ag gd r else r), st.seq⟩ ∧
    Evolves st
      ⟨st.rows.map (fun r => if r.id == i then updateRow nm em ag gd r else r), st.seq⟩ := by
  have hfid : ∀ x : Student,
      ((fun r => if r.id == i then updateRow nm em ag gd r else r) x).id = x.id := by
    intro x
    by_cases hx : (x.id == i) = true <;> simp [hx, updateRow]
  have hfca : ∀ x : Student,
      ((fun r => if r.id == i then updateRow nm em ag gd r else r) x).created_at =
        x.created_at := by
    intro x
    by_cases hx : (x.id == i) = true <;> simp [hx, updateRow]
  have hids : idsOf ⟨st.rows.map (fun r => if r.id == i then updateRow nm em ag gd r else r),
      st.seq⟩ = idsOf st := by
    simp only [idsOf, List.map_map]
    exact List.map_congr_left (fun x _ => hfid x)
  refine ⟨⟨?_, ?_⟩, Nat.le_refl _, ?_⟩
  · intro r hr
    obtain ⟨x, hx, hfx⟩ := List.mem_map.mp hr
    have := hinv.1 x hx
    rw [← hfx]
    rw [hfid x]
    exact this
  · rw [hids]
    exact hinv.2
  · intro r2 hr2
    obtain ⟨x, hx, hfx⟩ := List.mem_map.mp hr2
    exact Or.inr ⟨x, hx, by rw [← hfx, hfid x], by rw [← hfx, hfca x]⟩

theorem inv_evolves_filter (st : DbState) (hinv : Inv st) (i : Nat) :
    Inv ⟨st.rows.filter (fun r => r.id != i), st.seq⟩ ∧
    Evolves st ⟨st.rows.filter (fun r => r.id != i), st.seq⟩ := by
  refine ⟨⟨?_, ?_⟩, Nat.le_refl _, ?_⟩
  · intro r hr
    exact hinv.1 r (List.mem_of_mem_filter hr)
  · have hsub : (idsOf ⟨st.rows.filter (fun r => r.id != i), st.seq⟩).Sublist (idsOf st) :=
      (List.filter_sublist _).map Student.id
    exact hinv.2.sublist hsub
  · intro r2 hr2
    exact Or.inr ⟨r2, List.mem_of_mem_filter hr2, rfl, rfl⟩

theorem applyOp_inv_evolves (st : DbState) (hinv : Inv st) (op : Op) :
    Inv (applyOp st op) ∧ Evolves st (applyOp st op) := by
  cases op with
  | opPost b now =>
    rcases postStudents_state st b now with h | ⟨s, hs, h⟩
    · rw [applyOp, h]
      exact ⟨hinv, evolves_refl st⟩
    · rw [applyOp, h]
      exact inv_evolves_append st hinv s hs
  | opPut i b =>
    rcases putStudents_state st i b with h | ⟨nm, em, gd, ag, h⟩
    · rw [applyOp, h]
      exact ⟨hinv, evolves_refl st⟩
    · rw [applyOp, h]
      exact inv_evolves_map st hinv nm em gd ag i
  | opDelete i =>
    rcases deleteStudents_state st i with h | h
    · rw [applyOp, h]
      exact ⟨hinv, evolves_refl st⟩
    · rw [applyOp, h]
      exact inv_evolves_filter st hinv i

theorem runOps_inv_evolves (st : DbState) (hinv : Inv st) (ops : List Op) :
    Inv (runOps st ops) ∧ Evolves st (runOps st ops) := by
  induction ops generalizing st with
  | nil => exact ⟨hinv, evolves_refl st⟩
  | cons op t ih =>
    have h1 := applyOp_inv_evolves st hinv op
    have h2 := ih (applyOp st op) h1.1
    exact ⟨h2.1, evolves_trans h1.2 h2.2⟩

/-- C8: in every state reachable from the fresh table by create, update
and delete requests, the ids in the table are pairwise distinct (each id
identifies at most one record); and in every state reachable from there
by further requests, the sequence value has not decreased and every
record either continues a record of the earlier state (same id, same
creation timestamp) or carries an id strictly above the earlier sequence
value — so an id at or below the sequence value that is no longer in the
table (e.g. one whose record was deleted) is never assigned again. -/
theorem id_unique_never_reused (ops more : List Op) :
    (idsOf (runOps initState ops)).Nodup ∧
    (runOps initState ops).seq ≤ (runOps (runOps initState ops) more).seq ∧
    ∀ r2 ∈ (runOps (runOps initState ops) more).rows,
      (runOps initState ops).seq < r2.id ∨
      ∃ r ∈ (runOps initState ops).rows,
        r.id = r2.id ∧ r.created_at = r2.created_at := by
  have h1 := runOps_inv_evolves initState Inv_initState ops
  have h2 := runOps_inv_evolves (runOps initState ops) h1.1 more
  exact ⟨h1.1.2, h2.2.1, h2.2.2⟩

/-- Witness for `id_unique_never_reused`: create two records, delete the
first, then create another; id 1 is not reassigned. -/
theorem id_unique_never_reused_witness :
    (idsOf (runOps initState
      [.opPost (strBody "Ana" "a@x.com" "21" "Female") 3,
       .opPost (strBody "Bob" "b@x.com" "30" "Male") 4,
       .opDelete 1])).Nodup ∧
    (runOps initState
      [.opPost (strBody "Ana" "a@x.com" "21" "Female") 3,
       .opPost (strBody "Bob" "b@x.com" "30" "Male") 4,
       .opDelete 1]).seq ≤
      (runOps (runOps initState
        [.opPost (strBody "Ana" "a@x.com" "21" "Female") 3,
         .opPost (strBody "Bob" "b@x.com" "30" "Male") 4,
         .opDelete 1])
        [.opPost (strBody "Cyd" "c@x.com" "25" "Other") 5]).seq ∧
    ∀ r2 ∈ (runOps (runOps initState
        [.opPost (strBody "Ana" "a@x.com" "21" "Female") 3,
         .opPost (strBody "Bob" "b@x.com" "30" "Male") 4,
         .opDelete 1])
        [.opPost (strBody "Cyd" "c@x.com" "25" "Other") 5]).rows,
      (runOps initState
        [.opPost (strBody "Ana" "a@x.com" "21" "Female") 3,
         .opPost (strBody "Bob" "b@x.com" "30" "Male") 4,
         .opDelete 1]).seq < r2.id ∨
      ∃ r ∈ (runOps initState
        [.opPost (strBody "Ana" "a@x.com" "21" "Female") 3,
         .opPost (strBody "Bob" "b@x.com" "30" "Male") 4,
         .opDelete 1]).rows,
        r.id = r2.id ∧ r.created_at = r2.created_at :=
  id_unique_never_reused
    [.opPost (strBody "Ana" "a@x.com" "21" "Female") 3,
     .opPost (strBody "Bob" "b@x.com" "30" "Male") 4,
     .opDelete 1]
    [.opPost (strBody "Cyd" "c@x.com" "25" "Other") 5]

end StudentApi
